import Mathlib

/-!
Verification of the Blue Prism → OpenAI bridge service (`src/bridge/app.py`)
against its natural-language specification.

The bridge is a small Flask application with two POST endpoints, `/analyze`
and `/chat`, that validate an incoming JSON body, make exactly one call to an
external completion provider, and translate the result (or the failure kind)
into a uniform JSON envelope.  This file shallowly embeds the request
handlers: JSON values become an inductive type with Python truthiness, the
ambient clock becomes explicit parameters (`now` for `int(time.time())`, `ts`
for `get_timestamp()`, `ptimeMs` for the measured processing time), and the
single external call becomes an explicit `ApiOutcome` parameter describing
what the provider did.  Each handler additionally records the arguments of
the external call it made (`none` when the call never happened), so that
"no external call is made" is expressible.
-/

namespace Bridge

/-- A JSON value, as produced by Flask\x27s `request.get_json()`.
Numbers are modelled as integers (no claim involves fractional values). -/
inductive JsonVal where
  | null
  | bool (b : Bool)
  | num (n : Int)
  | str (s : String)
  | arr (elems : List JsonVal)
  | obj (fields : List (String × JsonVal))

/-- Python truthiness (`bool(v)`) of a JSON value: `None`, `False`, `0`,
`""`, `[]` and `\x7b\x7d` are falsy, everything else is truthy.  The handlers
use it through `if not query ...`, `if not messages ...`. -/
def truthy : JsonVal → Bool
  | .null => false
  | .bool b => b
  | .num n => n != 0
  | .str s => s != ""
  | .arr elems => !elems.isEmpty
  | .obj fields => !fields.isEmpty

/-- Dictionary lookup: the value stored under `key`, if the key is present
(even when the stored value is `null`, exactly like Python\x27s `dict.get`). -/
def getField (data : List (String × JsonVal)) (key : String) : Option JsonVal :=
  match data with
  | [] => none
  | (k, v) :: rest => if k == key then some v else getField rest key

/-- Python\x27s `data.get(key, dflt)`: the stored value when the key is
present, the default otherwise. -/
def getFieldD (data : List (String × JsonVal)) (key : String) (dflt : JsonVal) : JsonVal :=
  (getField data key).getD dflt

mutual

/-- Python `repr` of a JSON value (approximate for nested strings: no escape
sequences are re-inserted).  Only `pyStr` on strings is ever reached by the
claims; the other branches exist so that the prompt builder is total. -/
def pyRepr : JsonVal → String
  | .null => "None"
  | .bool true => "True"
  | .bool false => "False"
  | .num n => toString n
  | .str s => "\x27" ++ s ++ "\x27"
  | .arr elems => "[" ++ pyReprSeq elems ++ "]"
  | .obj fields => "\x7b" ++ pyReprFields fields ++ "\x7d"

/-- Comma-separated `repr`s of a list\x27s elements. -/
def pyReprSeq : List JsonVal → String
  | [] => ""
  | [v] => pyRepr v
  | v :: rest => pyRepr v ++ ", " ++ pyReprSeq rest

/-- Comma-separated `key: value` pairs of a dict\x27s items. -/
def pyReprFields : List (String × JsonVal) → String
  | [] => ""
  | [(k, v)] => "\x27" ++ k ++ "\x27: " ++ pyRepr v
  | (k, v) :: rest => "\x27" ++ k ++ "\x27: " ++ pyRepr v ++ ", " ++ pyReprFields rest

end

/-- Python `str(v)`, as used by f-string interpolation: the identity on
strings, `repr`-like elsewhere. -/
def pyStr : JsonVal → String
  | .str s => s
  | .null => pyRepr .null
  | .bool b => pyRepr (.bool b)
  | .num n => pyRepr (.num n)
  | .arr elems => pyRepr (.arr elems)
  | .obj fields => pyRepr (.obj fields)

/-- ASCII lowering of a string, Python\x27s `str.lower()` restricted to the
ASCII range (the substrings the handler searches for are ASCII). -/
def lowerStr (s : String) : String := String.mk (s.data.map Char.toLower)

/-- `needle.isPrefixOf hay` on character lists. -/
def charsPrefix : List Char → List Char → Bool
  | [], _ => true
  | _ :: _, [] => false
  | a :: as, b :: bs => a == b && charsPrefix as bs

/-- Whether `needle` occurs as a contiguous sublist of `hay`. -/
def charsContain (hay needle : List Char) : Bool :=
  match hay with
  | [] => needle.isEmpty
  | _ :: rest => charsPrefix needle hay || charsContain rest needle

/-- Python\x27s substring test `needle in hay`. -/
def strIn (needle hay : String) : Bool := charsContain hay.data needle.data

/-- Usage metadata attached to a provider result (`response.usage`). -/
structure Usage where
  total_tokens : Nat

/-- Result of a successful `client.responses.create` call (analyze path):
the generated text and optional usage metadata. -/
structure ResponsesResult where
  output_text : String
  usage : Option Usage

/-- Result of a successful `client.chat.completions.create` call (chat
path), as the handler reads it: first choice\x27s message content and finish
reason, plus optional usage metadata. -/
structure ChatCompletionResult where
  content : String
  finish_reason : String
  usage : Option Usage

/-- What the single external call did: succeeded with a result, or raised
one of the SDK\x27s exception kinds.  `rateLimit` carries the optional
`retry_after` attribute read by `getattr(e, "retry_after", 60)`;
`apiError` and `unexpected` carry `str(e)`. -/
inductive ApiOutcome (α : Type) where
  | ok (result : α)
  | authError (msg : String)
  | rateLimit (retry_after : Option Nat)
  | timeoutErr (msg : String)
  | apiError (msg : String)
  | unexpected (msg : String)

/-- The `details` mapping attached to rate-limit error envelopes
(`\x7b"retry_after_seconds": r\x7d`). -/
structure RateDetails where
  retry_after_seconds : Nat

/-- The error envelope built by `create_error_response`: the dict literally
contains `request_id`, `success` (always `False`), `error_code`,
`error_message`, `recoverable` and `timestamp`; `details` is added only when
the `details` argument is truthy. -/
structure ErrorBody where
  request_id : JsonVal
  success : Bool
  error_code : String
  error_message : String
  recoverable : Bool
  timestamp : String
  details : Option RateDetails

/-- Success envelope of `/analyze`. -/
structure AnalyzeSuccess where
  request_id : JsonVal
  success : Bool
  analysis : String
  tokens_used : Nat
  processing_time_ms : Nat
  timestamp : String

/-- Success envelope of `/chat`. -/
structure ChatSuccess where
  request_id : JsonVal
  success : Bool
  content : String
  tokens_used : Nat
  finish_reason : String
  processing_time_ms : Nat
  timestamp : String

/-- A JSON response body produced by the bridge. -/
inductive Body where
  | analyzeOk (b : AnalyzeSuccess)
  | chatOk (b : ChatSuccess)
  | err (e : ErrorBody)

/-- A full HTTP response: body plus status code. -/
structure HttpResponse where
  body : Body
  status : Nat

/-- `create_error_response(request_id, error_code, message, recoverable,
details, http_status)` with the timestamp passed explicitly.  In the source
`details` is included via `if details:`; the only non-`None` argument ever
passed is the non-empty (hence truthy) rate-limit dict, so inclusion
coincides with the argument being present. -/
def create_error_response (request_id : JsonVal) (error_code : String) (message : String)
    (recoverable : Bool) (details : Option RateDetails) (http_status : Nat) (ts : String) :
    HttpResponse :=
  { body := .err
      { request_id := request_id
        success := false
        error_code := error_code
        error_message := message
        recoverable := recoverable
        timestamp := ts
        details := details }
    status := http_status }

/-- Arguments of the one `client.responses.create` call. -/
structure AnalyzeCall where
  model : JsonVal
  input : String
  max_output_tokens : JsonVal

/-- Arguments of the one `client.chat.completions.create` call. -/
structure ChatCall where
  model : JsonVal
  messages : JsonVal
  max_tokens : JsonVal

/-- What one `/analyze` request did: the external call it issued (if any)
and the HTTP response it returned. -/
structure AnalyzeRun where
  call : Option AnalyzeCall
  response : HttpResponse

/-- What one `/chat` request did. -/
structure ChatRun where
  call : Option ChatCall
  response : HttpResponse

/-- The `/analyze` handler body on an already-parsed JSON object `data`.
`now` is `int(time.time())` at entry, `outcome` is what the external call
would do, `ts` the timestamp at response construction, `ptimeMs` the
measured processing time. -/
def analyze (data : List (String × JsonVal)) (now : Nat)
    (outcome : ApiOutcome ResponsesResult) (ts : String) (ptimeMs : Nat) : AnalyzeRun :=
  let request_id := getFieldD data "request_id" (.str ("auto-" ++ toString now))
  let query := getFieldD data "query" (.str "")
  let sources := getFieldD data "sources" (.str "")
  let model := getFieldD data "model" (.str "gpt-5-nano")
  let max_tokens := getFieldD data "max_tokens" (.num 4096)
  if !truthy query && !truthy sources then
    { call := none,
      response := create_error_response request_id "VALIDATION_ERROR"
        "At least one of \x27query\x27 or \x27sources\x27 is required" false none 400 ts }
  else
    let input_text :=
      (if truthy query then "Research Query: " ++ pyStr query ++ "\n\n" else "") ++
      (if truthy sources then "Source Content:\n" ++ pyStr sources ++ "\n\n" else "") ++
      "Please analyze the above content and provide a comprehensive research summary."
    let theCall : AnalyzeCall :=
      { model := model, input := input_text, max_output_tokens := max_tokens }
    match outcome with
    | .ok r =>
      let tokens_used := match r.usage with | some u => u.total_tokens | none => 0
      { call := some theCall
        response :=
          { body := .analyzeOk
              { request_id := request_id
                success := true
                analysis := r.output_text
                tokens_used := tokens_used
                processing_time_ms := ptimeMs
                timestamp := ts }
            status := 200 } }
    | .authError _ =>
      { call := some theCall,
        response := create_error_response request_id "AUTH_ERROR"
          "Invalid OpenAI API key" false none 401 ts }
    | .rateLimit ra =>
      let retry_after := ra.getD 60
      { call := some theCall,
        response := create_error_response request_id "RATE_LIMIT"
          ("Rate limit exceeded. Retry after " ++ toString retry_after ++ " seconds.")
          true (some { retry_after_seconds := retry_after }) 429 ts }
    | .timeoutErr _ =>
      { call := some theCall,
        response := create_error_response request_id "TIMEOUT"
          "Request timed out. Try again with a shorter input." true none 504 ts }
    | .apiError msg =>
      if strIn "context_length" (lowerStr msg) || strIn "maximum" (lowerStr msg) then
        { call := some theCall,
          response := create_error_response request_id "CONTEXT_LENGTH"
            "Content too large for model. Please reduce the source content size."
            false none 400 ts }
      else
        { call := some theCall,
          response := create_error_response request_id "SERVER_ERROR"
            ("OpenAI API error: " ++ msg) true none 502 ts }
    | .unexpected msg =>
      { call := some theCall,
        response := create_error_response request_id "BRIDGE_ERROR"
          ("Internal bridge error: " ++ msg) false none 500 ts }

/-- The `/chat` handler body on an already-parsed JSON object `data`.
Unlike `/analyze`, its `APIError` branch performs no context-length
substring inspection: every generic provider error maps to `SERVER_ERROR`. -/
def chat (data : List (String × JsonVal)) (now : Nat)
    (outcome : ApiOutcome ChatCompletionResult) (ts : String) (ptimeMs : Nat) : ChatRun :=
  let request_id := getFieldD data "request_id" (.str ("auto-" ++ toString now))
  let model := getFieldD data "model" (.str "gpt-5-nano")
  let messages := getFieldD data "messages" (.arr [])
  let max_tokens := getFieldD data "max_tokens" (.num 4096)
  if !truthy messages then
    { call := none,
      response := create_error_response request_id "VALIDATION_ERROR"
        "\x27messages\x27 array is required" false none 400 ts }
  else
    let theCall : ChatCall := { model := model, messages := messages, max_tokens := max_tokens }
    match outcome with
    | .ok r =>
      let tokens_used := match r.usage with | some u => u.total_tokens | none => 0
      { call := some theCall
        response :=
          { body := .chatOk
              { request_id := request_id
                success := true
                content := r.content
                tokens_used := tokens_used
                finish_reason := r.finish_reason
                processing_time_ms := ptimeMs
                timestamp := ts }
            status := 200 } }
    | .authError _ =>
      { call := some theCall,
        response := create_error_response request_id "AUTH_ERROR"
          "Invalid OpenAI API key" false none 401 ts }
    | .rateLimit ra =>
      let retry_after := ra.getD 60
      { call := some theCall,
        response := create_error_response request_id "RATE_LIMIT"
          ("Rate limit exceeded. Retry after " ++ toString retry_after ++ " seconds.")
          true (some { retry_after_seconds := retry_after }) 429 ts }
    | .timeoutErr _ =>
      { call := some theCall,
        response := create_error_response request_id "TIMEOUT"
          "Request timed out. Try again with a shorter input." true none 504 ts }
    | .apiError msg =>
      { call := some theCall,
        response := create_error_response request_id "SERVER_ERROR"
          ("OpenAI API error: " ++ msg) true none 502 ts }
    | .unexpected msg =>
      { call := some theCall,
        response := create_error_response request_id "BRIDGE_ERROR"
          ("Internal bridge error: " ++ msg) false none 500 ts }

/-- An inbound HTTP request as the route machinery sees it:
`mimetype_json` is Flask\x27s `request.is_json` (the Content-Type header
declares a JSON mimetype — it does not look at the body); `parsed` is the
outcome of parsing the body (`none` when the body is not valid JSON). -/
structure HttpRequest where
  mimetype_json : Bool
  parsed : Option JsonVal

/-- The rejection branch of the `validate_request` decorator. -/
def validate_request_reject (ts : String) : HttpResponse :=
  create_error_response (.str "unknown") "VALIDATION_ERROR" "Request must be JSON"
    false none 400 ts

/-- The global `@app.errorhandler(Exception)` handler.  In Flask a handler
registered for `Exception` also catches `HTTPException`s raised during the
view, such as the `BadRequest` that `request.get_json()` raises on an
unparseable body. -/
def handle_exception (ts : String) : HttpResponse :=
  create_error_response (.str "unknown") "INTERNAL_ERROR" "An unexpected error occurred"
    false none 500 ts

/-- The `@app.errorhandler(413)` handler for oversized bodies. -/
def request_entity_too_large (ts : String) : HttpResponse :=
  create_error_response (.str "unknown") "PAYLOAD_TOO_LARGE"
    "Request body exceeds maximum allowed size (50MB)" false none 413 ts

/-- Full `/analyze` route: the `validate_request` decorator rejects
requests whose Content-Type is not JSON; then `data = request.get_json()`
raises `BadRequest` on an unparseable body, and `data.get(...)` raises
`AttributeError` on a parsed non-object body — both raised outside the
handler\x27s `try` block, hence converted by the global exception handler. -/
def analyzeRoute (req : HttpRequest) (now : Nat) (outcome : ApiOutcome ResponsesResult)
    (ts : String) (ptimeMs : Nat) : AnalyzeRun :=
  if !req.mimetype_json then
    { call := none, response := validate_request_reject ts }
  else
    match req.parsed with
    | none => { call := none, response := handle_exception ts }
    | some (.obj fields) => analyze fields now outcome ts ptimeMs
    | some _ => { call := none, response := handle_exception ts }

/-- Full `/chat` route (same decorator and parse behaviour). -/
def chatRoute (req : HttpRequest) (now : Nat) (outcome : ApiOutcome ChatCompletionResult)
    (ts : String) (ptimeMs : Nat) : ChatRun :=
  if !req.mimetype_json then
    { call := none, response := validate_request_reject ts }
  else
    match req.parsed with
    | none => { call := none, response := handle_exception ts }
    | some (.obj fields) => chat fields now outcome ts ptimeMs
    | some _ => { call := none, response := handle_exception ts }

/-- The `request_id` field carried by a response body (every body has one). -/
def requestIdOf : Body → JsonVal
  | .analyzeOk b => b.request_id
  | .chatOk b => b.request_id
  | .err e => e.request_id

/-- The `error_code` of a body, when it is an error envelope. -/
def errCodeOf : Body → Option String
  | .err e => some e.error_code
  | _ => none

/-- The `error_message` of a body, when it is an error envelope. -/
def errMsgOf : Body → Option String
  | .err e => some e.error_message
  | _ => none

/-- The `recoverable` flag of a body, when it is an error envelope. -/
def recoverableOf : Body → Option Bool
  | .err e => some e.recoverable
  | _ => none

/-- The `details` mapping of a body, when it is an error envelope carrying
one. -/
def detailsOf : Body → Option RateDetails
  | .err e => e.details
  | _ => none

/-- The `tokens_used` field of a body, when it is a success envelope. -/
def tokensUsedOf : Body → Option Nat
  | .analyzeOk b => some b.tokens_used
  | .chatOk b => some b.tokens_used
  | .err _ => none

/-- Whether a body is an error envelope. -/
def isErrB : Body → Bool
  | .err _ => true
  | _ => false

/-- Specification vocabulary: whether a JSON value is a non-empty string. -/
def nonEmptyStringVal : JsonVal → Bool
  | .str s => s != ""
  | _ => false

/-- Specification vocabulary: whether a JSON value is a non-empty sequence. -/
def nonEmptySeqVal : JsonVal → Bool
  | .arr elems => !elems.isEmpty
  | _ => false

/-- The analyze prompt as the specification describes it (spec section 4.2):
a labeled query section present exactly when `query` is non-empty, then a
labeled source-content section present exactly when `sources` is non-empty,
then a fixed trailing instruction, in this fixed order.  Stated separately
from `analyze` so that the handler can be proved to refine it. -/
def specAnalyzePrompt (query sources : String) : String :=
  (if query = "" then "" else "Research Query: " ++ query ++ "\n\n") ++
  (if sources = "" then "" else "Source Content:\n" ++ sources ++ "\n\n") ++
  "Please analyze the above content and provide a comprehensive research summary."

/-- The envelope invariant of claim C10, as a decidable check on one body:
an error envelope has `success = false` and carries `details` only when its
`error_code` is `RATE_LIMIT`. -/
def detailsOnlyRL : Body → Bool
  | .err e => !e.success && (!e.details.isSome || e.error_code == "RATE_LIMIT")
  | _ => true

/-- C6: every parsed request handled by `/analyze` or `/chat`, for every
possible outcome of the external call (hence in every response branch,
success or failure), returns the client-supplied `request_id` when the key
is present, and otherwise the single id `auto-<integer>` generated from the
clock value read once at the start of handling. -/
theorem C6_request_id_stable (data : List (String × JsonVal)) (now : Nat)
    (oa : ApiOutcome ResponsesResult) (oc : ApiOutcome ChatCompletionResult)
    (ts : String) (pt : Nat) :
    requestIdOf (analyze data now oa ts pt).response.body =
      (match getField data "request_id" with
       | some v => v
       | none => .str ("auto-" ++ toString now)) ∧
    requestIdOf (chat data now oc ts pt).response.body =
      (match getField data "request_id" with
       | some v => v
       | none => .str ("auto-" ++ toString now)) := by
  have hD : getFieldD data "request_id" (.str ("auto-" ++ toString now)) =
      (match getField data "request_id" with
       | some v => v
       | none => .str ("auto-" ++ toString now)) := by
    unfold getFieldD
    cases getField data "request_id" <;> rfl
  constructor
  · rw [← hD]
    simp only [analyze]
    split
    · rfl
    · cases oa with
      | apiError msg =>
          dsimp only
          by_cases hc : (strIn "context_length" (lowerStr msg) ||
            strIn "maximum" (lowerStr msg)) = true
          · rw [if_pos hc]; rfl
          · rw [if_neg hc]; rfl
      | ok r => rfl
      | authError m => rfl
      | rateLimit ra => rfl
      | timeoutErr m => rfl
      | unexpected m => rfl
  · rw [← hD]
    simp only [chat]
    split
    · rfl
    · cases oc <;> rfl

/-- C10: every error envelope produced by the bridge (both full routes, the
payload-too-large handler and the global exception handler) has
`success = false`, carries the fields of `ErrorBody` by construction, and
carries the optional `details` mapping only when its `error_code` is
`RATE_LIMIT`. -/
theorem C10_details_only_rate_limit (req : HttpRequest) (now : Nat)
    (oa : ApiOutcome ResponsesResult) (oc : ApiOutcome ChatCompletionResult)
    (ts : String) (pt : Nat) :
    detailsOnlyRL (analyzeRoute req now oa ts pt).response.body = true ∧
    detailsOnlyRL (chatRoute req now oc ts pt).response.body = true ∧
    detailsOnlyRL (request_entity_too_large ts).body = true ∧
    detailsOnlyRL (handle_exception ts).body = true := by
  refine ⟨?_, ?_, rfl, rfl⟩
  · simp only [analyzeRoute]
    split
    · rfl
    · split
      · rfl
      · simp only [analyze]
        split
        · rfl
        · cases oa with
          | apiError msg =>
              dsimp only
              by_cases hc : (strIn "context_length" (lowerStr msg) ||
                strIn "maximum" (lowerStr msg)) = true
              · rw [if_pos hc]; rfl
              · rw [if_neg hc]; rfl
          | ok r => rfl
          | authError m => rfl
          | rateLimit ra => rfl
          | timeoutErr m => rfl
          | unexpected m => rfl
      · rfl
  · simp only [chatRoute]
    split
    · rfl
    · split
      · rfl
      · simp only [chat]
        split
        · rfl
        · cases oc <;> rfl
      · rfl

/-- C1 counterexample: a `/chat` request whose external call fails with a
generic provider error whose lower-cased message contains "maximum" is
classified `SERVER_ERROR` with status 502 — not `CONTEXT_LENGTH` with
status 400 as the claim asserts for both endpoints: the chat handler has no
context-length inspection. -/
theorem C1_counterexample :
    strIn "maximum" (lowerStr "maximum context length exceeded") = true ∧
    errCodeOf (chat [("messages", .arr [.obj [("role", .str "user"), ("content", .str "hi")]])]
        0 (.apiError "maximum context length exceeded") "ts" 0).response.body =
      some "SERVER_ERROR" ∧
    (chat [("messages", .arr [.obj [("role", .str "user"), ("content", .str "hi")]])]
        0 (.apiError "maximum context length exceeded") "ts" 0).response.status = 502 :=
  ⟨by decide, by decide, by decide⟩

/-- C2 counterexample: a request whose Content-Type declares JSON but whose
body is not valid JSON reaches the handler (the decorator only checks the
mimetype), where `get_json()` raises and the global exception handler
answers 500 `INTERNAL_ERROR` — not 400 `VALIDATION_ERROR` as claimed. -/
theorem C2_counterexample :
    (analyzeRoute { mimetype_json := true, parsed := none } 0
        (.ok { output_text := "", usage := none }) "ts" 0).response.status = 500 ∧
    errCodeOf (analyzeRoute { mimetype_json := true, parsed := none } 0
        (.ok { output_text := "", usage := none }) "ts" 0).response.body =
      some "INTERNAL_ERROR" :=
  ⟨by decide, by decide⟩

/-- C3 counterexample: a valid `/chat` request whose external call times
out is answered with HTTP status 504 (`TIMEOUT`), a status the claim says
`/chat` never returns. -/
theorem C3_counterexample :
    (chatRoute { mimetype_json := true
                 parsed := some (.obj [("messages",
                   .arr [.obj [("role", .str "user"), ("content", .str "hi")]])]) }
        0 (.timeoutErr "request timed out") "ts" 0).response.status = 504 ∧
    errCodeOf (chatRoute { mimetype_json := true
                           parsed := some (.obj [("messages",
                             .arr [.obj [("role", .str "user"), ("content", .str "hi")]])]) }
        0 (.timeoutErr "request timed out") "ts" 0).response.body = some "TIMEOUT" :=
  ⟨by decide, by decide⟩

/-- C4 counterexample: in the parsed request `\x7b"query": 1\x7d` neither
`query` nor `sources` is a non-empty string, yet validation passes (Python
truthiness of the number 1), the external call is made and the response is
200 — not the claimed 400 `VALIDATION_ERROR`. -/
theorem C4_counterexample :
    nonEmptyStringVal (JsonVal.num 1) = false ∧
    (getField [("query", JsonVal.num 1)] "sources").isSome = false ∧
    (analyze [("query", JsonVal.num 1)] 0
        (.ok { output_text := "a", usage := none }) "ts" 0).call.isSome = true ∧
    (analyze [("query", JsonVal.num 1)] 0
        (.ok { output_text := "a", usage := none }) "ts" 0).response.status = 200 :=
  ⟨by decide, by decide, by decide, by decide⟩

/-- C5 counterexample: in the parsed request `\x7b"messages": 5\x7d` the
`messages` value is not a sequence at all, yet validation passes (5 is
truthy) and the external call is made, refuting "validation passes exactly
when `messages` is a non-empty sequence". -/
theorem C5_counterexample :
    nonEmptySeqVal (JsonVal.num 5) = false ∧
    (chat [("messages", JsonVal.num 5)] 0
        (.ok { content := "c", finish_reason := "stop", usage := none }) "ts" 0).call.isSome =
      true ∧
    (chat [("messages", JsonVal.num 5)] 0
        (.ok { content := "c", finish_reason := "stop", usage := none }) "ts" 0).response.status =
      200 :=
  ⟨by decide, by decide, by decide⟩

/-- Helper: a true disjunction makes the conjunction of the negations false
(the shape of the validation guards). -/
theorem nand_of_or_true {a b : Bool} (h : (a || b) = true) : (!a && !b) = false := by
  cases a <;> cases b <;> simp_all

/-- Helper: once validation passes, `analyze` records the external call it
issued, whatever the outcome. -/
theorem analyze_makes_call (data : List (String × JsonVal)) (now : Nat)
    (outcome : ApiOutcome ResponsesResult) (ts : String) (pt : Nat)
    (h : (!truthy (getFieldD data "query" (.str "")) &&
          !truthy (getFieldD data "sources" (.str ""))) = false) :
    (analyze data now outcome ts pt).call.isSome = true := by
  simp only [analyze]
  rw [h]
  cases outcome with
  | apiError msg =>
      dsimp only
      by_cases hc : (strIn "context_length" (lowerStr msg) ||
        strIn "maximum" (lowerStr msg)) = true
      · rw [if_pos hc]; rfl
      · rw [if_neg hc]; rfl
  | ok r => rfl
  | authError m => rfl
  | rateLimit ra => rfl
  | timeoutErr m => rfl
  | unexpected m => rfl

/-- Helper: once validation passes, `chat` records the external call it
issued, whatever the outcome. -/
theorem chat_makes_call (data : List (String × JsonVal)) (now : Nat)
    (outcome : ApiOutcome ChatCompletionResult) (ts : String) (pt : Nat)
    (h : (!truthy (getFieldD data "messages" (.arr []))) = false) :
    (chat data now outcome ts pt).call.isSome = true := by
  simp only [chat]
  rw [h]
  cases outcome <;> rfl

/-- Helper: once validation passes, the input string of the external call
issued by `analyze` is the labeled-section concatenation built from the
`query` and `sources` fields, whatever the outcome. -/
theorem analyze_call_input (data : List (String × JsonVal)) (now : Nat)
    (outcome : ApiOutcome ResponsesResult) (ts : String) (pt : Nat)
    (h : (!truthy (getFieldD data "query" (.str "")) &&
          !truthy (getFieldD data "sources" (.str ""))) = false) :
    ((analyze data now outcome ts pt).call.map fun c => c.input) =
      some ((if truthy (getFieldD data "query" (.str "")) then
               "Research Query: " ++ pyStr (getFieldD data "query" (.str "")) ++ "\n\n"
             else "") ++
            (if truthy (getFieldD data "sources" (.str "")) then
               "Source Content:\n" ++ pyStr (getFieldD data "sources" (.str "")) ++ "\n\n"
             else "") ++
            "Please analyze the above content and provide a comprehensive research summary.") := by
  simp only [analyze]
  rw [h]
  cases outcome with
  | apiError msg =>
      dsimp only
      by_cases hc : (strIn "context_length" (lowerStr msg) ||
        strIn "maximum" (lowerStr msg)) = true
      · rw [if_pos hc]; rfl
      · rw [if_neg hc]; rfl
  | ok r => rfl
  | authError m => rfl
  | rateLimit ra => rfl
  | timeoutErr m => rfl
  | unexpected m => rfl

/-- C1 (amended): when the external call fails with a generic provider API
error, on `/analyze` the lower-cased message is searched for
"context_length" or "maximum" and the request is classified
`CONTEXT_LENGTH`/400/non-recoverable on a hit and
`SERVER_ERROR`/502/recoverable (raw message included) otherwise; on `/chat`
there is no such inspection and every generic provider error is classified
`SERVER_ERROR`/502/recoverable with the raw message included. -/
theorem C1_generic_error_classification (data : List (String × JsonVal)) (now : Nat)
    (msg : String) (ts : String) (pt : Nat)
    (hq : (truthy (getFieldD data "query" (.str "")) ||
           truthy (getFieldD data "sources" (.str ""))) = true)
    (hm : truthy (getFieldD data "messages" (.arr [])) = true) :
    (if (strIn "context_length" (lowerStr msg) || strIn "maximum" (lowerStr msg)) = true then
      (analyze data now (.apiError msg) ts pt).response.status = 400 ∧
      errCodeOf (analyze data now (.apiError msg) ts pt).response.body = some "CONTEXT_LENGTH" ∧
      recoverableOf (analyze data now (.apiError msg) ts pt).response.body = some false
    else
      (analyze data now (.apiError msg) ts pt).response.status = 502 ∧
      errCodeOf (analyze data now (.apiError msg) ts pt).response.body = some "SERVER_ERROR" ∧
      recoverableOf (analyze data now (.apiError msg) ts pt).response.body = some true ∧
      errMsgOf (analyze data now (.apiError msg) ts pt).response.body =
        some ("OpenAI API error: " ++ msg)) ∧
    ((chat data now (.apiError msg) ts pt).response.status = 502 ∧
     errCodeOf (chat data now (.apiError msg) ts pt).response.body = some "SERVER_ERROR" ∧
     recoverableOf (chat data now (.apiError msg) ts pt).response.body = some true ∧
     errMsgOf (chat data now (.apiError msg) ts pt).response.body =
       some ("OpenAI API error: " ++ msg)) := by
  have hA := nand_of_or_true hq
  have hM : (!truthy (getFieldD data "messages" (.arr []))) = false := by rw [hm]; rfl
  constructor
  · by_cases hc : (strIn "context_length" (lowerStr msg) ||
      strIn "maximum" (lowerStr msg)) = true
    · rw [if_pos hc]
      simp only [analyze]
      rw [hA, if_pos hc]
      exact ⟨rfl, rfl, rfl⟩
    · rw [if_neg hc]
      simp only [analyze]
      rw [hA, if_neg hc]
      exact ⟨rfl, rfl, rfl, rfl⟩
  · simp only [chat]
    rw [hM]
    exact ⟨rfl, rfl, rfl, rfl⟩

/-- C1 witness: the amended classification applied to a concrete `/chat`
request and provider message. -/
theorem C1_witness :
    (truthy (getFieldD [("query", JsonVal.str "q"), ("messages", JsonVal.arr [JsonVal.str "m"])]
        "query" (.str "")) ||
     truthy (getFieldD [("query", JsonVal.str "q"), ("messages", JsonVal.arr [JsonVal.str "m"])]
        "sources" (.str ""))) = true ∧
    truthy (getFieldD [("query", JsonVal.str "q"), ("messages", JsonVal.arr [JsonVal.str "m"])]
        "messages" (.arr [])) = true ∧
    (chat [("query", JsonVal.str "q"), ("messages", JsonVal.arr [JsonVal.str "m"])] 3
        (.apiError "boom") "ts" 7).response.status = 502 :=
  ⟨by decide, by decide,
    (C1_generic_error_classification
      [("query", JsonVal.str "q"), ("messages", JsonVal.arr [JsonVal.str "m"])]
      3 "boom" "ts" 7 (by decide) (by decide)).2.1⟩

/-- C2 (amended): a request whose Content-Type does not declare JSON is
rejected by the decorator with 400/`VALIDATION_ERROR`/`request_id
"unknown"` and no business logic runs; a request whose Content-Type
declares JSON but whose body does not parse reaches the handler, where
parsing raises and the global exception handler answers
500/`INTERNAL_ERROR`/`request_id "unknown"`, again with no validation,
prompt assembly or external call.  This holds on both endpoints. -/
theorem C2_invalid_body_rejection (req : HttpRequest) (now : Nat)
    (oa : ApiOutcome ResponsesResult) (oc : ApiOutcome ChatCompletionResult)
    (ts : String) (pt : Nat) :
    (req.mimetype_json = false →
      ((analyzeRoute req now oa ts pt).call.isSome = false ∧
       (analyzeRoute req now oa ts pt).response.status = 400 ∧
       errCodeOf (analyzeRoute req now oa ts pt).response.body = some "VALIDATION_ERROR" ∧
       requestIdOf (analyzeRoute req now oa ts pt).response.body = .str "unknown" ∧
       (chatRoute req now oc ts pt).call.isSome = false ∧
       (chatRoute req now oc ts pt).response.status = 400 ∧
       errCodeOf (chatRoute req now oc ts pt).response.body = some "VALIDATION_ERROR" ∧
       requestIdOf (chatRoute req now oc ts pt).response.body = .str "unknown")) ∧
    (req.mimetype_json = true → req.parsed = none →
      ((analyzeRoute req now oa ts pt).call.isSome = false ∧
       (analyzeRoute req now oa ts pt).response.status = 500 ∧
       errCodeOf (analyzeRoute req now oa ts pt).response.body = some "INTERNAL_ERROR" ∧
       requestIdOf (analyzeRoute req now oa ts pt).response.body = .str "unknown" ∧
       (chatRoute req now oc ts pt).call.isSome = false ∧
       (chatRoute req now oc ts pt).response.status = 500 ∧
       errCodeOf (chatRoute req now oc ts pt).response.body = some "INTERNAL_ERROR" ∧
       requestIdOf (chatRoute req now oc ts pt).response.body = .str "unknown")) := by
  constructor
  · intro h
    simp only [analyzeRoute, chatRoute, h]
    exact ⟨rfl, rfl, rfl, rfl, rfl, rfl, rfl, rfl⟩
  · intro h hp
    simp only [analyzeRoute, chatRoute, h, hp]
    exact ⟨rfl, rfl, rfl, rfl, rfl, rfl, rfl, rfl⟩

/-- C2 witness: the decorator rejection evaluated on a concrete non-JSON
request. -/
theorem C2_witness :
    ({ mimetype_json := false, parsed := none } : HttpRequest).mimetype_json = false ∧
    (analyzeRoute { mimetype_json := false, parsed := none } 0
        (.ok { output_text := "", usage := none }) "ts" 0).response.status = 400 :=
  ⟨rfl,
    ((C2_invalid_body_rejection { mimetype_json := false, parsed := none } 0
      (.ok { output_text := "", usage := none })
      (.ok { content := "", finish_reason := "stop", usage := none }) "ts" 0).1 rfl).2.1⟩

/-- C3 (amended): every failing `/chat` response has HTTP status in
\x7b400, 401, 429, 500, 502, 504\x7d — the spec\x27s table omits 504, but the
chat handler does answer 504, exactly for external-call timeouts. -/
theorem C3_chat_failure_statuses (req : HttpRequest) (now : Nat)
    (oc : ApiOutcome ChatCompletionResult) (ts : String) (pt : Nat) :
    (isErrB (chatRoute req now oc ts pt).response.body = true →
      (chatRoute req now oc ts pt).response.status ∈
        ([400, 401, 429, 500, 502, 504] : List Nat)) ∧
    ((chatRoute req now oc ts pt).response.status = 504 →
      errCodeOf (chatRoute req now oc ts pt).response.body = some "TIMEOUT") := by
  simp only [chatRoute, chat]
  split
  · exact ⟨fun _ => by simp [validate_request_reject, create_error_response],
      fun h => by simp [validate_request_reject, create_error_response] at h⟩
  · split
    · exact ⟨fun _ => by simp [handle_exception, create_error_response],
        fun h => by simp [handle_exception, create_error_response] at h⟩
    · split
      · exact ⟨fun _ => by simp [create_error_response],
          fun h => by simp [create_error_response] at h⟩
      · cases oc with
        | ok r => exact ⟨fun h => Bool.noConfusion h, fun h => by simp at h⟩
        | authError m => exact ⟨fun _ => by simp [create_error_response],
            fun h => by simp [create_error_response] at h⟩
        | rateLimit ra => exact ⟨fun _ => by simp [create_error_response],
            fun h => by simp [create_error_response] at h⟩
        | timeoutErr m => exact ⟨fun _ => by simp [create_error_response], fun _ => rfl⟩
        | apiError m => exact ⟨fun _ => by simp [create_error_response],
            fun h => by simp [create_error_response] at h⟩
        | unexpected m => exact ⟨fun _ => by simp [create_error_response],
            fun h => by simp [create_error_response] at h⟩
    · exact ⟨fun _ => by simp [handle_exception, create_error_response],
        fun h => by simp [handle_exception, create_error_response] at h⟩

/-- C3 witness: the status bound applied to a concrete failing `/chat`
request (missing `messages`). -/
theorem C3_witness :
    isErrB (chatRoute { mimetype_json := true, parsed := some (.obj []) } 0
        (.ok { content := "c", finish_reason := "stop", usage := none }) "ts" 0).response.body =
      true ∧
    (chatRoute { mimetype_json := true, parsed := some (.obj []) } 0
        (.ok { content := "c", finish_reason := "stop", usage := none }) "ts" 0).response.status ∈
      ([400, 401, 429, 500, 502, 504] : List Nat) :=
  ⟨by decide,
    (C3_chat_failure_statuses { mimetype_json := true, parsed := some (.obj []) } 0
      (.ok { content := "c", finish_reason := "stop", usage := none }) "ts" 0).1 (by decide)⟩

/-- Helper: a non-empty string is truthy. -/
theorem truthy_of_nonEmptyStringVal {v : JsonVal} (hv : nonEmptyStringVal v = true) :
    truthy v = true := by
  cases v <;> first | exact hv | exact Bool.noConfusion hv

/-- Helper: a non-empty sequence is truthy. -/
theorem truthy_of_nonEmptySeqVal {v : JsonVal} (hv : nonEmptySeqVal v = true) :
    truthy v = true := by
  cases v <;> first | exact hv | exact Bool.noConfusion hv

/-- C4 (amended): a parsed `/analyze` request is rejected with
400/`VALIDATION_ERROR` and no external call exactly when both `query` and
`sources` are falsy under Python truthiness (absent, empty string, `null`,
`0`, `false`, empty array or object); any truthy value passes validation —
in particular a non-empty string does, as the claim says, but so do truthy
non-string values such as a non-zero number, contrary to the claim\x27s
"neither is a non-empty string → 400" direction. -/
theorem C4_analyze_validation (data : List (String × JsonVal)) (now : Nat)
    (outcome : ApiOutcome ResponsesResult) (ts : String) (pt : Nat) :
    (((truthy (getFieldD data "query" (.str "")) ||
       truthy (getFieldD data "sources" (.str ""))) = false) ↔
      ((analyze data now outcome ts pt).call.isSome = false ∧
       (analyze data now outcome ts pt).response.status = 400 ∧
       errCodeOf (analyze data now outcome ts pt).response.body = some "VALIDATION_ERROR")) ∧
    ((nonEmptyStringVal (getFieldD data "query" (.str "")) ||
      nonEmptyStringVal (getFieldD data "sources" (.str ""))) = true →
      (analyze data now outcome ts pt).call.isSome = true) := by
  constructor
  · constructor
    · intro hf
      have h1 : truthy (getFieldD data "query" (.str "")) = false := by
        revert hf
        cases truthy (getFieldD data "query" (.str "")) <;>
          cases truthy (getFieldD data "sources" (.str "")) <;> simp
      have h2 : truthy (getFieldD data "sources" (.str "")) = false := by
        revert hf
        cases truthy (getFieldD data "query" (.str "")) <;>
          cases truthy (getFieldD data "sources" (.str "")) <;> simp
      simp only [analyze, h1, h2]
      exact ⟨rfl, rfl, rfl⟩
    · intro hr
      by_contra hne
      have ht : (truthy (getFieldD data "query" (.str "")) ||
          truthy (getFieldD data "sources" (.str ""))) = true := by
        revert hne
        cases (truthy (getFieldD data "query" (.str "")) ||
          truthy (getFieldD data "sources" (.str ""))) <;> simp
      have hcall := analyze_makes_call data now outcome ts pt (nand_of_or_true ht)
      rw [hr.1] at hcall
      exact Bool.noConfusion hcall
  · intro hs
    cases hx : nonEmptyStringVal (getFieldD data "query" (.str "")) with
    | true =>
        exact analyze_makes_call data now outcome ts pt
          (nand_of_or_true (by rw [truthy_of_nonEmptyStringVal hx]; rfl))
    | false =>
        have hy : nonEmptyStringVal (getFieldD data "sources" (.str "")) = true := by
          revert hs
          rw [hx]
          simp
        exact analyze_makes_call data now outcome ts pt
          (nand_of_or_true (by rw [truthy_of_nonEmptyStringVal hy, Bool.or_true]))

/-- C4 witness: the validation rejection evaluated on the concrete empty
request. -/
theorem C4_witness :
    (truthy (getFieldD ([] : List (String × JsonVal)) "query" (.str "")) ||
     truthy (getFieldD ([] : List (String × JsonVal)) "sources" (.str ""))) = false ∧
    (analyze [] 0 (.ok { output_text := "a", usage := none }) "ts" 0).response.status = 400 :=
  ⟨by decide,
    ((C4_analyze_validation [] 0 (.ok { output_text := "a", usage := none }) "ts" 0).1.mp
      (by decide)).2.1⟩

/-- C5 (amended): a parsed `/chat` request is rejected with
400/`VALIDATION_ERROR` and no external call exactly when `messages` is
falsy under Python truthiness; in particular an absent `messages` key or an
empty sequence is rejected, as the claim says, and every non-empty sequence
passes — but validation also passes for truthy non-sequence values such as
a non-zero number, contrary to "passes exactly when `messages` is a
non-empty sequence". -/
theorem C5_chat_validation (data : List (String × JsonVal)) (now : Nat)
    (outcome : ApiOutcome ChatCompletionResult) (ts : String) (pt : Nat) :
    ((truthy (getFieldD data "messages" (.arr [])) = false) ↔
      ((chat data now outcome ts pt).call.isSome = false ∧
       (chat data now outcome ts pt).response.status = 400 ∧
       errCodeOf (chat data now outcome ts pt).response.body = some "VALIDATION_ERROR")) ∧
    ((getField data "messages" = none ∨ getField data "messages" = some (.arr [])) →
      ((chat data now outcome ts pt).call.isSome = false ∧
       (chat data now outcome ts pt).response.status = 400 ∧
       errCodeOf (chat data now outcome ts pt).response.body = some "VALIDATION_ERROR")) ∧
    (nonEmptySeqVal (getFieldD data "messages" (.arr [])) = true →
      (chat data now outcome ts pt).call.isSome = true) := by
  have hIff : (truthy (getFieldD data "messages" (.arr [])) = false) ↔
      ((chat data now outcome ts pt).call.isSome = false ∧
       (chat data now outcome ts pt).response.status = 400 ∧
       errCodeOf (chat data now outcome ts pt).response.body = some "VALIDATION_ERROR") := by
    constructor
    · intro hf
      simp only [chat, hf]
      exact ⟨rfl, rfl, rfl⟩
    · intro hr
      by_contra hne
      have ht : truthy (getFieldD data "messages" (.arr [])) = true := by
        revert hne
        cases truthy (getFieldD data "messages" (.arr [])) <;> simp
      have hcall := chat_makes_call data now outcome ts pt (by rw [ht]; rfl)
      rw [hr.1] at hcall
      exact Bool.noConfusion hcall
  refine ⟨hIff, ?_, ?_⟩
  · intro habs
    apply hIff.mp
    unfold getFieldD
    rcases habs with h | h <;> rw [h] <;> rfl
  · intro hs
    exact chat_makes_call data now outcome ts pt
      (by rw [truthy_of_nonEmptySeqVal hs]; rfl)

/-- C5 witness: the validation rejection evaluated on the concrete empty
request. -/
theorem C5_witness :
    truthy (getFieldD ([] : List (String × JsonVal)) "messages" (.arr [])) = false ∧
    (chat [] 0 (.ok { content := "c", finish_reason := "stop", usage := none })
        "ts" 0).response.status = 400 :=
  ⟨by decide,
    ((C5_chat_validation [] 0
      (.ok { content := "c", finish_reason := "stop", usage := none }) "ts" 0).1.mp
      (by decide)).2.1⟩

/-- C7: on both endpoints, a rate-limited external call yields status 429,
`RATE_LIMIT`, `recoverable = true`, and `details.retry_after_seconds` equal
to the provider\x27s retry-after hint when present and 60 otherwise. -/
theorem C7_rate_limit_envelope (data : List (String × JsonVal)) (now : Nat)
    (ra : Option Nat) (ts : String) (pt : Nat)
    (hq : (truthy (getFieldD data "query" (.str "")) ||
           truthy (getFieldD data "sources" (.str ""))) = true)
    (hm : truthy (getFieldD data "messages" (.arr [])) = true) :
    ((analyze data now (.rateLimit ra) ts pt).response.status = 429 ∧
     errCodeOf (analyze data now (.rateLimit ra) ts pt).response.body = some "RATE_LIMIT" ∧
     recoverableOf (analyze data now (.rateLimit ra) ts pt).response.body = some true ∧
     detailsOf (analyze data now (.rateLimit ra) ts pt).response.body =
       some { retry_after_seconds := ra.getD 60 }) ∧
    ((chat data now (.rateLimit ra) ts pt).response.status = 429 ∧
     errCodeOf (chat data now (.rateLimit ra) ts pt).response.body = some "RATE_LIMIT" ∧
     recoverableOf (chat data now (.rateLimit ra) ts pt).response.body = some true ∧
     detailsOf (chat data now (.rateLimit ra) ts pt).response.body =
       some { retry_after_seconds := ra.getD 60 }) := by
  have hA := nand_of_or_true hq
  have hM : (!truthy (getFieldD data "messages" (.arr []))) = false := by rw [hm]; rfl
  constructor
  · simp only [analyze]
    rw [hA]
    exact ⟨rfl, rfl, rfl, rfl⟩
  · simp only [chat]
    rw [hM]
    exact ⟨rfl, rfl, rfl, rfl⟩

/-- C7 witness: the rate-limit envelope evaluated on a concrete request
with no retry hint, giving the default 60. -/
theorem C7_witness :
    (truthy (getFieldD [("query", JsonVal.str "q"), ("messages", JsonVal.arr [JsonVal.str "m"])]
        "query" (.str "")) ||
     truthy (getFieldD [("query", JsonVal.str "q"), ("messages", JsonVal.arr [JsonVal.str "m"])]
        "sources" (.str ""))) = true ∧
    truthy (getFieldD [("query", JsonVal.str "q"), ("messages", JsonVal.arr [JsonVal.str "m"])]
        "messages" (.arr [])) = true ∧
    detailsOf (analyze [("query", JsonVal.str "q"), ("messages", JsonVal.arr [JsonVal.str "m"])]
        0 (.rateLimit none) "ts" 0).response.body = some { retry_after_seconds := 60 } :=
  ⟨by decide, by decide,
    (C7_rate_limit_envelope
      [("query", JsonVal.str "q"), ("messages", JsonVal.arr [JsonVal.str "m"])]
      0 none "ts" 0 (by decide) (by decide)).1.2.2.2⟩

/-- C8: on both endpoints, when the external call succeeds the response\x27s
`tokens_used` equals the result\x27s `usage.total_tokens` when usage metadata
is present and 0 when it is absent. -/
theorem C8_tokens_used_roundtrip (data : List (String × JsonVal)) (now : Nat)
    (ra : ResponsesResult) (rc : ChatCompletionResult) (ts : String) (pt : Nat)
    (hq : (truthy (getFieldD data "query" (.str "")) ||
           truthy (getFieldD data "sources" (.str ""))) = true)
    (hm : truthy (getFieldD data "messages" (.arr [])) = true) :
    (∀ u, ra.usage = some u →
      tokensUsedOf (analyze data now (.ok ra) ts pt).response.body = some u.total_tokens) ∧
    (ra.usage = none →
      tokensUsedOf (analyze data now (.ok ra) ts pt).response.body = some 0) ∧
    (∀ u, rc.usage = some u →
      tokensUsedOf (chat data now (.ok rc) ts pt).response.body = some u.total_tokens) ∧
    (rc.usage = none →
      tokensUsedOf (chat data now (.ok rc) ts pt).response.body = some 0) := by
  have hA := nand_of_or_true hq
  have hM : (!truthy (getFieldD data "messages" (.arr []))) = false := by rw [hm]; rfl
  refine ⟨?_, ?_, ?_, ?_⟩
  · intro u hu
    simp only [analyze]
    rw [hA, hu]
    rfl
  · intro hu
    simp only [analyze]
    rw [hA, hu]
    rfl
  · intro u hu
    simp only [chat]
    rw [hM, hu]
    rfl
  · intro hu
    simp only [chat]
    rw [hM, hu]
    rfl

/-- C8 witness: the token round-trip evaluated on a concrete request and a
result carrying `total_tokens = 42`. -/
theorem C8_witness :
    (truthy (getFieldD [("query", JsonVal.str "q"), ("messages", JsonVal.arr [JsonVal.str "m"])]
        "query" (.str "")) ||
     truthy (getFieldD [("query", JsonVal.str "q"), ("messages", JsonVal.arr [JsonVal.str "m"])]
        "sources" (.str ""))) = true ∧
    ({ output_text := "a", usage := some { total_tokens := 42 } } : ResponsesResult).usage =
      some { total_tokens := 42 } ∧
    tokensUsedOf (analyze [("query", JsonVal.str "q"), ("messages", JsonVal.arr [JsonVal.str "m"])]
        0 (.ok { output_text := "a", usage := some { total_tokens := 42 } }) "ts" 0).response.body =
      some 42 :=
  ⟨by decide, rfl,
    (C8_tokens_used_roundtrip
      [("query", JsonVal.str "q"), ("messages", JsonVal.arr [JsonVal.str "m"])]
      0 { output_text := "a", usage := some { total_tokens := 42 } }
      { content := "c", finish_reason := "stop", usage := none } "ts" 0
      (by decide) (by decide)).1 { total_tokens := 42 } rfl⟩

/-- C9: for every valid `/analyze` request whose `query` and `sources`
fields hold strings, the input text sent to the external capability is the
fixed-order concatenation of a labeled query section (present exactly when
`query` is non-empty), a labeled source-content section (present exactly
when `sources` is non-empty), and the fixed trailing instruction — i.e. the
handler refines `specAnalyzePrompt`, whose labels and ordering are
request-independent. -/
theorem C9_prompt_assembly (data : List (String × JsonVal)) (now : Nat)
    (outcome : ApiOutcome ResponsesResult) (ts : String) (pt : Nat) (q s : String)
    (hq : getFieldD data "query" (.str "") = .str q)
    (hs : getFieldD data "sources" (.str "") = .str s)
    (hv : ¬(q = "" ∧ s = "")) :
    ((analyze data now outcome ts pt).call.map fun c => c.input) =
      some (specAnalyzePrompt q s) := by
  have hcond : (!truthy (getFieldD data "query" (.str "")) &&
      !truthy (getFieldD data "sources" (.str ""))) = false := by
    rw [hq, hs]
    by_cases h1 : q = ""
    · by_cases h2 : s = ""
      · exact absurd ⟨h1, h2⟩ hv
      · simp [truthy, h2]
    · simp [truthy, h1]
  have hcall := analyze_call_input data now outcome ts pt hcond
  rw [hq, hs] at hcall
  rw [hcall]
  congr 1
  by_cases h1 : q = ""
  · subst h1
    by_cases h2 : s = ""
    · exact absurd ⟨rfl, h2⟩ hv
    · simp [truthy, pyStr, specAnalyzePrompt, h2]
  · by_cases h2 : s = ""
    · subst h2
      simp [truthy, pyStr, specAnalyzePrompt, h1]
    · simp [truthy, pyStr, specAnalyzePrompt, h1, h2]

/-- C9 witness: the prompt refinement evaluated on a concrete request with
a query and no sources. -/
theorem C9_witness :
    getFieldD [("query", JsonVal.str "What is AI?")] "query" (.str "") = .str "What is AI?" ∧
    getFieldD [("query", JsonVal.str "What is AI?")] "sources" (.str "") = .str "" ∧
    ((analyze [("query", JsonVal.str "What is AI?")] 0
        (.ok { output_text := "a", usage := none }) "ts" 0).call.map fun c => c.input) =
      some (specAnalyzePrompt "What is AI?" "") :=
  ⟨rfl, rfl,
    C9_prompt_assembly [("query", JsonVal.str "What is AI?")] 0
      (.ok { output_text := "a", usage := none }) "ts" 0 "What is AI?" ""
      rfl rfl (by simp)⟩

end Bridge
